import Mathlib

/-!
Shallow embedding of the email classifier in `app/ai_classifier.py`
(class `EmailClassifier`): text preprocessing, keyword-based
classification, the zero-shot threshold decision logic, the top-level
`classify_email` fallback chain, and the response template selection in
`generate_response`.  Python strings are modelled as Lean `String`s,
Python floats as `ℚ`, and Python dicts of label scores as association
lists.  The external zero-shot model call and the translator are
modelled as explicit inputs (`ModelOutcome`, `Option String`), since the
code treats them as black boxes whose failure is caught.
-/

namespace EmailClassifier

/-- Models Python's notion of whitespace for `str.split()` / `str.strip()`
(ASCII whitespace characters; the inputs of interest contain no other
Unicode whitespace). -/
def isPyWs (c : Char) : Bool :=
  c = ' ' || c = '\t' || c = '\n' || c = '\r' || c = '\x0b' || c = '\x0c'

/-- Helper for `pySplit`: walks the character list, accumulating the
current word (reversed) in `cur`. -/
def pySplitAux : List Char → List Char → List String
  | cur, [] => if cur.isEmpty then [] else [String.mk cur.reverse]
  | cur, c :: cs =>
      if isPyWs c then
        (if cur.isEmpty then [] else [String.mk cur.reverse]) ++ pySplitAux [] cs
      else
        pySplitAux (c :: cur) cs

/-- Models Python `text.split()` (no argument): split on runs of
whitespace, discarding empty pieces. -/
def pySplit (s : String) : List String :=
  pySplitAux [] s.data

/-- Models Python `' '.join(parts)`. -/
def joinSpace : List String → String
  | [] => ""
  | [w] => w
  | w :: ws => w ++ " " ++ joinSpace ws

/-- Models Python slicing `s[:n]`. -/
def strTake (s : String) (n : Nat) : String :=
  String.mk (s.data.take n)

/-- Helper: drop leading Python-whitespace characters. -/
def dropWs : List Char → List Char
  | [] => []
  | c :: cs => if isPyWs c then dropWs cs else c :: cs

/-- Models Python `s.strip()`: remove leading and trailing whitespace. -/
def pyStrip (s : String) : String :=
  String.mk ((dropWs (dropWs s.data).reverse).reverse)

/-- Models Python `s.lower()` (ASCII case folding; the keyword
vocabulary is already lowercase, accented letters are untouched). -/
def pyLower (s : String) : String :=
  String.mk (s.data.map Char.toLower)

/-- Does `needle` occur at the head of `haystack`? -/
def charsStartWith : List Char → List Char → Bool
  | [], _ => true
  | _ :: _, [] => false
  | a :: as, b :: bs => a = b && charsStartWith as bs

/-- Does `needle` occur as a contiguous substring of `haystack`? -/
def charsContain (needle : List Char) : List Char → Bool
  | [] => charsStartWith needle []
  | b :: bs => charsStartWith needle (b :: bs) || charsContain needle bs

/-- Models Python's `needle in haystack` substring test. -/
def strContains (haystack needle : String) : Bool :=
  charsContain needle.data haystack.data

/-- Embeds `EmailClassifier._preprocess_text`: collapse whitespace by
`' '.join(text.split())`, then truncate to 512 characters with an
ellipsis marker. -/
def preprocessText (text : String) : String :=
  let cleaned := joinSpace (pySplit text)
  if cleaned.length > 512 then strTake cleaned 512 ++ "..." else cleaned

/-- The result dictionary returned by classification: keys
`classification`, `confidence`, `reasoning`, plus the optional
`translated_text` and `zero_shot_scores` keys that only some code paths
add. -/
structure ClassificationResult where
  classification : String
  confidence : ℚ
  reasoning : String
  translated_text : Option String := none
  zero_shot_scores : Option (List (String × ℚ)) := none
deriving DecidableEq

/-- The `productive_keywords` list of `_classify_with_keywords`. -/
def productive_keywords : List String :=
  ["suporte", "problema", "erro", "bug", "falha", "ajuda", "dúvida",
   "solicitação", "pedido", "urgente", "prazo", "atualização", "status",
   "pendente", "bloqueado", "reunião", "projeto", "revisão", "análise"]

/-- The `unproductive_keywords` list of `_classify_with_keywords`. -/
def unproductive_keywords : List String :=
  ["parabéns", "felicitações", "obrigado", "agradecimento", "natal",
   "aniversário", "feriado", "férias", "convite"]

/-- The decision rule of `_classify_with_keywords` (lines 171-189),
as a function of the two keyword counts. -/
def keywordDecision (productive_count unproductive_count : Nat) : ClassificationResult :=
  if productive_count > unproductive_count then
    { classification := "produtivo"
      confidence := min 0.85 (0.6 + (productive_count : ℚ) * 0.1)
      reasoning := "Contém " ++ toString productive_count ++ " palavras-chave produtivas" }
  else if unproductive_count > 0 then
    { classification := "improdutivo"
      confidence := min 0.80 (0.6 + (unproductive_count : ℚ) * 0.1)
      reasoning := "Contém " ++ toString unproductive_count ++ " palavras-chave improdutivas" }
  else
    { classification := "produtivo"
      confidence := 0.6
      reasoning := "Classificação padrão para emails empresariais" }

/-- Embeds `EmailClassifier._classify_with_keywords`: count vocabulary
entries occurring in the lowercased text, then apply `keywordDecision`. -/
def classify_with_keywords (text : String) : ClassificationResult :=
  let text_lower := pyLower text
  let productive_count := productive_keywords.countP (fun k => strContains text_lower k)
  let unproductive_count := unproductive_keywords.countP (fun k => strContains text_lower k)
  keywordDecision productive_count unproductive_count

/-- Models Python's f-string `"%.2f"`-style rendering of a score (as in
`f"Zero-shot: score produtivo {prod_score:.2f}"`), rounding to two
decimal places. -/
def formatScore2 (q : ℚ) : String :=
  let cents : Int := Int.floor (q * 100 + 1 / 2)
  toString (cents / 100) ++ "." ++
    (if cents % 100 < 10 then "0" else "") ++ toString (cents % 100)

/-- The first candidate label description passed to the zero-shot model
(`candidate_labels[0]` in `classify_email`). -/
def candidate_label_productive : String :=
  "productive: Emails that require action, response, or have direct operational/financial impact. Examples: \x27I need an update on my loan request\x27, \x27The system is showing an error\x27, \x27When will my card be unlocked?\x27, \x27I want to dispute a charge on my bill\x27. Keywords: status, update, request, urgent, problem, error, payment, invoice, account, transaction, support, how, when, protocol, case, deadline, unlock, resolve, fix, question, help, information, document, contract, change, urgent information, operational change, financial\x27."

/-- The second candidate label description passed to the zero-shot model
(`candidate_labels[1]` in `classify_email`). -/
def candidate_label_unproductive : String :=
  "unproductive: Emails with no immediate action required, social/courtesy nature, generic thanks, greetings, or irrelevant to business. Examples: \x27Merry Christmas to you and your family\x27, \x27Thank you for your great service\x27, \x27Just letting you know I received the previous email\x27, \x27Promotion: 50% off product X\x27. Keywords: happy, congratulations, thank you, merry christmas, happy new year, best wishes, just informing, for your information, fyi, no action needed, holiday, birthday, automatic confirmation, spam, irrelevant, outside scope, generic question, social, courtesy, acknowledgment, only for your knowledge\x27."

/-- Models `dict(zip(labels, scores)).get(key, 0)`: in a Python dict
built from pairs, a duplicated key keeps its last value, hence the
lookup on the reversed list; a missing key defaults to `0`. -/
def dictGet (pairs : List (String × ℚ)) (key : String) : ℚ :=
  match pairs.reverse.lookup key with
  | some v => v
  | none => 0

/-- The threshold decision logic of the zero-shot branch of
`classify_email` (lines 103-120), as a function of the two scores and
the cleaned text (used by the ambiguous-band keyword fallback). -/
def zeroShotDecision (prod_score unprod_score : ℚ) (cleaned_text : String) : ClassificationResult :=
  if prod_score > 0.70 ∧ prod_score > unprod_score then
    { classification := "produtivo"
      confidence := prod_score
      reasoning := "Zero-shot: score produtivo " ++ formatScore2 prod_score }
  else if unprod_score > 0.70 then
    { classification := "improdutivo"
      confidence := unprod_score
      reasoning := "Zero-shot: score improdutivo " ++ formatScore2 unprod_score }
  else if 0.50 < max prod_score unprod_score ∧ max prod_score unprod_score ≤ 0.70 then
    let keyword_result := classify_with_keywords cleaned_text
    { classification := keyword_result.classification
      confidence := max prod_score unprod_score
      reasoning := "Ambíguo (zero-shot), fallback keywords: " ++ keyword_result.reasoning }
  else
    { classification := "produtivo"
      confidence := max prod_score unprod_score
      reasoning := "Score baixo, default produtivo" }

/-- The value `zero_shot_result` returned by the external pipeline call:
the `labels` and `scores` entries, each possibly missing (a missing
entry makes the Python subscript raise `KeyError`, caught by the outer
`except`). -/
structure ZeroShotOutput where
  labels : Option (List String)
  scores : Option (List ℚ)
deriving DecidableEq

/-- Outcome of the external zero-shot model for one call: the classifier
attribute is `None` (`absent`), the call returned a result (`output`),
or the call raised (`exn`). -/
inductive ModelOutcome where
  | absent : ModelOutcome
  | output : ZeroShotOutput → ModelOutcome
  | exn : ModelOutcome
deriving DecidableEq

/-- Embeds `EmailClassifier._fallback_classification`: the fixed
terminal result returned when classification itself raised. -/
def fallback_classification (_text : String) : ClassificationResult :=
  { classification := "produtivo"
    confidence := 0.5
    reasoning := "Classificação de fallback devido a erro" }

/-- Embeds `EmailClassifier.classify_email`.  `translationResult` is the
outcome of the translator call (`none` models the caught translation
exception, in which case the original cleaned text is used);
`outcome` is the outcome of the external zero-shot model.  Any
exception inside the `try` block (a raising model call, or a
`KeyError` on a malformed model output) lands in the outer `except`,
which returns `fallback_classification`. -/
def classify_email (text : String) (translationResult : Option String)
    (outcome : ModelOutcome) : ClassificationResult :=
  let cleaned_text := preprocessText text
  if (pyStrip cleaned_text).length < 10 then
    { classification := "improdutivo"
      confidence := 0.5
      reasoning := "Texto muito curto para análise" }
  else
    let translated_text := translationResult.getD cleaned_text
    match outcome with
    | ModelOutcome.output o =>
        match o.labels, o.scores with
        | some ls, some ss =>
            let scores := List.zip ls ss
            let prod_score := dictGet scores candidate_label_productive
            let unprod_score := dictGet scores candidate_label_unproductive
            let base := zeroShotDecision prod_score unprod_score cleaned_text
            { base with
                translated_text := some translated_text
                zero_shot_scores := some scores }
        | _, _ => fallback_classification text
    | ModelOutcome.absent =>
        let result := classify_with_keywords cleaned_text
        { result with translated_text := some translated_text }
    | ModelOutcome.exn => fallback_classification text

/-- Template for urgent productive emails (`_generate_productive_response`). -/
def resp_prod_urgent : String :=
  "Recebemos sua solicitação urgente e nossa equipe técnica está priorizando sua demanda. Você receberá uma atualização em no máximo 2 horas."

/-- Template for error-report productive emails. -/
def resp_prod_error : String :=
  "Obrigado por reportar este problema. Nossa equipe técnica está investigando e trabalharemos para resolver o mais rápido possível. Você receberá atualizações sobre o progresso da correção."

/-- Template for support-request productive emails. -/
def resp_prod_support : String :=
  "Recebemos sua solicitação de suporte. Nossa equipe especializada analisará sua questão e retornará com uma solução detalhada em até 24 horas."

/-- Template for status-update productive emails. -/
def resp_prod_status : String :=
  "Obrigado por solicitar uma atualização. Verificaremos o status atual de sua demanda e enviaremos um relatório detalhado em breve."

/-- Template for meeting-request productive emails. -/
def resp_prod_meeting : String :=
  "Recebemos sua solicitação de reunião. Verificaremos a disponibilidade da equipe e retornaremos com propostas de horários adequados."

/-- Generic productive template for confidence above 0.8 (`responses[0]`). -/
def resp_prod_generic_0 : String :=
  "Recebemos sua mensagem e nossa equipe está analisando. Retornaremos com uma resposta detalhada em breve."

/-- Generic productive template for confidence above 0.6 (`responses[1]`). -/
def resp_prod_generic_1 : String :=
  "Obrigado por entrar em contato. Sua demanda foi direcionada para o setor responsável e você receberá um retorno em até 24 horas."

/-- Generic productive template for low confidence (`responses[2]`). -/
def resp_prod_generic_2 : String :=
  "Confirmamos o recebimento de sua solicitação. Nossa equipe está trabalhando na análise e entrará em contato assim que possível."

/-- Template for congratulation emails (`_generate_unproductive_response`). -/
def resp_unprod_congrats : String :=
  "Muito obrigado pelas felicitações! Ficamos muito felizes em receber sua mensagem e agradecemos o reconhecimento."

/-- Template for thank-you emails. -/
def resp_unprod_thanks : String :=
  "Ficamos muito gratos pelo seu agradecimento! É sempre um prazer poder ajudar e contribuir para o seu sucesso."

/-- Template for holiday-greeting emails. -/
def resp_unprod_holiday : String :=
  "Muito obrigado pelas felicitações! Desejamos a você e sua família momentos especiais e muita alegria. Feliz feriado!"

/-- Template for birthday-greeting emails. -/
def resp_unprod_birthday : String :=
  "Obrigado pelas felicitações de aniversário! Ficamos muito felizes em receber sua mensagem carinhosa."

/-- Generic unproductive template for confidence above 0.8. -/
def resp_unprod_generic_0 : String :=
  "Muito obrigado pela mensagem! Ficamos felizes em receber seu contato e agradecemos por pensar em nós."

/-- Generic unproductive template for confidence above 0.6. -/
def resp_unprod_generic_1 : String :=
  "Agradecemos sua mensagem. É sempre um prazer ouvir de você! Tenha um excelente dia."

/-- Generic unproductive template for low confidence. -/
def resp_unprod_generic_2 : String :=
  "Obrigado pelo contato! Sua mensagem é muito importante para nós e ficamos gratos pela atenção."

/-- Embeds `EmailClassifier._generate_productive_response`: keyword
groups are tried in source order, then a generic template is chosen by
confidence band. -/
def generate_productive_response (text : String) (confidence : ℚ) : String :=
  let text_lower := pyLower text
  if ["urgente", "crítico", "emergência"].any (fun w => strContains text_lower w) then
    resp_prod_urgent
  else if ["erro", "problema", "falha", "bug"].any (fun w => strContains text_lower w) then
    resp_prod_error
  else if ["suporte", "ajuda", "dúvida"].any (fun w => strContains text_lower w) then
    resp_prod_support
  else if ["status", "atualização", "andamento"].any (fun w => strContains text_lower w) then
    resp_prod_status
  else if ["reunião", "meeting", "encontro"].any (fun w => strContains text_lower w) then
    resp_prod_meeting
  else if confidence > 0.8 then resp_prod_generic_0
  else if confidence > 0.6 then resp_prod_generic_1
  else resp_prod_generic_2

/-- Embeds `EmailClassifier._generate_unproductive_response`. -/
def generate_unproductive_response (text : String) (confidence : ℚ) : String :=
  let text_lower := pyLower text
  if ["parabéns", "felicitações"].any (fun w => strContains text_lower w) then
    resp_unprod_congrats
  else if ["obrigado", "agradecimento"].any (fun w => strContains text_lower w) then
    resp_unprod_thanks
  else if ["natal", "ano novo", "feriado"].any (fun w => strContains text_lower w) then
    resp_unprod_holiday
  else if ["aniversário", "nascimento"].any (fun w => strContains text_lower w) then
    resp_unprod_birthday
  else if confidence > 0.8 then resp_unprod_generic_0
  else if confidence > 0.6 then resp_unprod_generic_1
  else resp_unprod_generic_2

/-- Embeds `EmailClassifier.generate_response`: routes on the exact
string `'produtivo'`; every other classification value takes the
unproductive branch.  The surrounding `try`/`except` catches exceptions
from the helpers, which are pure and cannot raise, so the except arm is
unreachable and not modelled. -/
def generate_response (classification : String) (text : String) (confidence : ℚ) : String :=
  if classification = "produtivo" then generate_productive_response text confidence
  else generate_unproductive_response text confidence

/-! ### Helper lemmas -/

lemma append_ne_empty (s t : String) (h : s ≠ "") : s ++ t ≠ "" := by
  intro contra
  apply h
  have hl := congrArg String.length contra
  rw [String.length_append] at hl
  have hz : s.length = 0 := by
    have := (by simpa using hl : s.length = 0 ∧ t.length = 0)
    exact this.1
  cases s with
  | mk data =>
    cases data with
    | nil => rfl
    | cons c cs => simp [String.length] at hz

lemma lookup_eq_none_of_forall (key : String) :
    ∀ l : List (String × ℚ), (∀ p ∈ l, p.1 ≠ key) → l.lookup key = none := by
  intro l
  induction l with
  | nil => intro _; rfl
  | cons p ps ih =>
    intro h
    rcases p with ⟨k, b⟩
    have hk : (key == k) = false := by
      refine beq_eq_false_iff_ne.mpr ?_
      intro contra
      exact h (k, b) (List.mem_cons_self _ _) (by simp [contra])
    simp only [List.lookup, hk]
    exact ih (fun q hq => h q (List.mem_cons_of_mem _ hq))

lemma lookup_some_mem (key : String) (v : ℚ) :
    ∀ l : List (String × ℚ), l.lookup key = some v → ∃ k, (k, v) ∈ l := by
  intro l
  induction l with
  | nil => intro h; simp [List.lookup] at h
  | cons p ps ih =>
    intro h
    rcases p with ⟨k, b⟩
    cases hk : (key == k) with
    | true =>
        simp only [List.lookup, hk] at h
        exact ⟨k, by simp [Option.some_inj.mp h]⟩
    | false =>
        simp only [List.lookup, hk] at h
        obtain ⟨k', hk'⟩ := ih h
        exact ⟨k', List.mem_cons_of_mem _ hk'⟩

/-- Every score produced by `dictGet` over zipped labels/scores is `0`
(the default) or one of the score-list entries. -/
lemma dictGet_bounds (ls : List String) (ss : List ℚ) (key : String)
    (h : ∀ s ∈ ss, 0 ≤ s ∧ s ≤ 1) :
    0 ≤ dictGet (List.zip ls ss) key ∧ dictGet (List.zip ls ss) key ≤ 1 := by
  unfold dictGet
  cases hl : (List.zip ls ss).reverse.lookup key with
  | none => norm_num
  | some v =>
      obtain ⟨k, hmem⟩ := lookup_some_mem key v _ hl
      rw [List.mem_reverse] at hmem
      exact h v (List.of_mem_zip hmem).2

lemma dictGet_not_mem (ls : List String) (ss : List ℚ) (key : String)
    (h : key ∉ ls) : dictGet (List.zip ls ss) key = 0 := by
  unfold dictGet
  rw [lookup_eq_none_of_forall]
  intro p hp
  rw [List.mem_reverse] at hp
  intro contra
  exact h (contra ▸ (List.of_mem_zip hp).1)

/-- The short-text gate of `classify_email` (lines 55-60). -/
lemma classify_email_short (text : String) (tr : Option String) (outcome : ModelOutcome)
    (h : (pyStrip (preprocessText text)).length < 10) :
    classify_email text tr outcome =
      { classification := "improdutivo", confidence := 0.5,
        reasoning := "Texto muito curto para análise" } := by
  simp [classify_email, h]

/-- A raising model call is caught by the outer `except` of
`classify_email`, which returns `_fallback_classification` (lines 134-136). -/
lemma classify_email_exn (text : String) (tr : Option String)
    (h : ¬ (pyStrip (preprocessText text)).length < 10) :
    classify_email text tr ModelOutcome.exn = fallback_classification text := by
  simp [classify_email, h]

/-- When the zero-shot classifier attribute is `None`, `classify_email`
runs the keyword policy on the cleaned text and adds the translated
text to its result (lines 128-132). -/
lemma classify_email_absent (text : String) (tr : Option String)
    (h : ¬ (pyStrip (preprocessText text)).length < 10) :
    classify_email text tr ModelOutcome.absent =
      { classify_with_keywords (preprocessText text) with
          translated_text := some (tr.getD (preprocessText text)) } := by
  simp [classify_email, h]

/-- With a well-formed model output, `classify_email` applies the
zero-shot threshold logic to the two looked-up scores (lines 98-127). -/
lemma classify_email_output (text : String) (tr : Option String)
    (ls : List String) (ss : List ℚ)
    (h : ¬ (pyStrip (preprocessText text)).length < 10) :
    classify_email text tr (ModelOutcome.output ⟨some ls, some ss⟩) =
      { zeroShotDecision (dictGet (List.zip ls ss) candidate_label_productive)
          (dictGet (List.zip ls ss) candidate_label_unproductive) (preprocessText text) with
          translated_text := some (tr.getD (preprocessText text))
          zero_shot_scores := some (List.zip ls ss) } := by
  simp [classify_email, h]

/-- A model output missing its `labels` or `scores` entry makes the
subscript raise, so the outer `except` returns the fallback result. -/
lemma classify_email_output_missing (text : String) (tr : Option String) (o : ZeroShotOutput)
    (h : ¬ (pyStrip (preprocessText text)).length < 10)
    (hmal : o.labels = none ∨ o.scores = none) :
    classify_email text tr (ModelOutcome.output o) = fallback_classification text := by
  rcases o with ⟨lbl, sc⟩
  cases lbl <;> cases sc <;> simp_all [classify_email, h]

/-- Both scores defaulting to `0` sends the zero-shot decision into the
low-score default branch. -/
lemma zeroShotDecision_zero (t : String) :
    zeroShotDecision 0 0 t =
      { classification := "produtivo", confidence := 0,
        reasoning := "Score baixo, default produtivo" } := by
  norm_num [zeroShotDecision]

/-! ### Claim theorems -/

/-- C1: in the zero-shot variant, for scores each in [0,1]: a productive
score above 0.70 that beats the unproductive score yields the Productive
label with confidence equal to the productive score; otherwise an
unproductive score above 0.70 yields the Unproductive label with
confidence equal to the unproductive score; and when both scores are at
most 0.50 the result is Productive with confidence equal to the larger
score and the low-score default reasoning. -/
theorem c1_zero_shot_thresholds (ps us : ℚ) (t : String)
    (hp0 : 0 ≤ ps) (hp1 : ps ≤ 1) (hu0 : 0 ≤ us) (hu1 : us ≤ 1) :
    (ps > 0.70 ∧ ps > us →
      (zeroShotDecision ps us t).classification = "produtivo" ∧
      (zeroShotDecision ps us t).confidence = ps) ∧
    (¬(ps > 0.70 ∧ ps > us) → us > 0.70 →
      (zeroShotDecision ps us t).classification = "improdutivo" ∧
      (zeroShotDecision ps us t).confidence = us) ∧
    (ps ≤ 0.50 → us ≤ 0.50 →
      (zeroShotDecision ps us t).classification = "produtivo" ∧
      (zeroShotDecision ps us t).confidence = max ps us ∧
      (zeroShotDecision ps us t).reasoning = "Score baixo, default produtivo") := by
  refine ⟨fun h => ?_, fun h1 h2 => ?_, fun h1 h2 => ?_⟩
  · simp [zeroShotDecision, h]
  · simp [zeroShotDecision, h1, h2]
  · have c1 : ¬(ps > 0.70 ∧ ps > us) := by rintro ⟨a, -⟩; linarith
    have c2 : ¬ us > 0.70 := by linarith
    have d1 : ¬ (0.50 : ℚ) < ps := by linarith
    have d2 : ¬ (0.50 : ℚ) < us := by linarith
    simp [zeroShotDecision, c1, c2, d1, d2]

/-- Witness for C1 at the concrete scores (0.82, 0.10). -/
theorem c1_zero_shot_thresholds_witness :
    (zeroShotDecision 0.82 0.10 "exemplo").classification = "produtivo" ∧
    (zeroShotDecision 0.82 0.10 "exemplo").confidence = 0.82 :=
  (c1_zero_shot_thresholds 0.82 0.10 "exemplo" (by norm_num) (by norm_num)
    (by norm_num) (by norm_num)).1 ⟨by norm_num, by norm_num⟩

/-- C2: the Keyword Decision Policy maps counts (pc, uc) to: Productive
with confidence min(0.85, 0.6 + 0.1·pc) when pc > uc; else Unproductive
with confidence min(0.80, 0.6 + 0.1·uc) when uc > 0; else Productive
with confidence 0.60 and the default-classification reasoning. -/
theorem c2_keyword_policy (pc uc : Nat) :
    (pc > uc →
      keywordDecision pc uc =
        { classification := "produtivo",
          confidence := min 0.85 (0.6 + (pc : ℚ) * 0.1),
          reasoning := "Contém " ++ toString pc ++ " palavras-chave produtivas" }) ∧
    (¬ pc > uc → uc > 0 →
      keywordDecision pc uc =
        { classification := "improdutivo",
          confidence := min 0.80 (0.6 + (uc : ℚ) * 0.1),
          reasoning := "Contém " ++ toString uc ++ " palavras-chave improdutivas" }) ∧
    (¬ pc > uc → uc = 0 →
      keywordDecision pc uc =
        { classification := "produtivo", confidence := 0.6,
          reasoning := "Classificação padrão para emails empresariais" }) := by
  refine ⟨fun h => ?_, fun h1 h2 => ?_, fun h1 h2 => ?_⟩
  · simp [keywordDecision, h]
  · simp [keywordDecision, h1, h2]
  · have hp : pc = 0 := by omega
    subst hp; subst h2
    simp [keywordDecision]

/-- Witness for C2 at the concrete counts (2, 0). -/
theorem c2_keyword_policy_witness :
    keywordDecision 2 0 =
      { classification := "produtivo",
        confidence := min 0.85 (0.6 + ((2 : Nat) : ℚ) * 0.1),
        reasoning := "Contém " ++ toString (2 : Nat) ++ " palavras-chave produtivas" } :=
  (c2_keyword_policy 2 0).1 (by decide)

/-- C3: in the ambiguous band (max score in (0.50, 0.70], the earlier
threshold branches being then unreachable), the zero-shot decision
returns exactly the Keyword Decision Policy's label for the same text,
with confidence equal to the larger zero-shot score and a reasoning that
records the ambiguity together with the keyword policy's reasoning. -/
theorem c3_ambiguous_band (ps us : ℚ) (t : String)
    (h1 : 0.50 < max ps us) (h2 : max ps us ≤ 0.70) :
    (zeroShotDecision ps us t).classification = (classify_with_keywords t).classification ∧
    (zeroShotDecision ps us t).confidence = max ps us ∧
    (zeroShotDecision ps us t).reasoning =
      "Ambíguo (zero-shot), fallback keywords: " ++ (classify_with_keywords t).reasoning := by
  have hps : ps ≤ 0.70 := le_trans (le_max_left ps us) h2
  have hus : us ≤ 0.70 := le_trans (le_max_right ps us) h2
  have c1 : ¬(ps > 0.70 ∧ ps > us) := by rintro ⟨a, -⟩; linarith
  have c2 : ¬ us > 0.70 := by linarith
  simp [zeroShotDecision, c1, c2, h1, h2]

/-- Witness for C3 at the concrete scores (0.60, 0.55). -/
theorem c3_ambiguous_band_witness :
    (zeroShotDecision 0.60 0.55 "parabéns pela conquista").classification =
      (classify_with_keywords "parabéns pela conquista").classification ∧
    (zeroShotDecision 0.60 0.55 "parabéns pela conquista").confidence = max 0.60 0.55 ∧
    (zeroShotDecision 0.60 0.55 "parabéns pela conquista").reasoning =
      "Ambíguo (zero-shot), fallback keywords: " ++
        (classify_with_keywords "parabéns pela conquista").reasoning :=
  c3_ambiguous_band 0.60 0.55 "parabéns pela conquista"
    (by rw [max_eq_left (by norm_num)]; norm_num)
    (by rw [max_eq_left (by norm_num)]; norm_num)

/-- C4: whenever the cleaned, stripped text is shorter than 10
characters, `classify_email` short-circuits to the Unproductive label
with confidence 0.5 and the short-text reasoning, for every translator
outcome and every model outcome. -/
theorem c4_short_text_gate (text : String) (tr : Option String) (outcome : ModelOutcome)
    (h : (pyStrip (preprocessText text)).length < 10) :
    classify_email text tr outcome =
      { classification := "improdutivo", confidence := 0.5,
        reasoning := "Texto muito curto para análise" } := by
  simp [classify_email, h]

/-- Witness for C4 at the 2-character input "ok" with a raising model. -/
theorem c4_short_text_gate_witness :
    (pyStrip (preprocessText "ok")).length < 10 ∧
    classify_email "ok" none ModelOutcome.exn =
      { classification := "improdutivo", confidence := 0.5,
        reasoning := "Texto muito curto para análise" } :=
  ⟨by decide, c4_short_text_gate "ok" none ModelOutcome.exn (by decide)⟩

/-- C5 counterexample: for a 27-character text with no vocabulary
keywords, a raising model call makes `classify_email` return the fixed
fallback result (confidence 0.5), which differs from the Keyword
Decision Policy's result on the same cleaned text (confidence 0.6). -/
theorem c5_exn_not_keyword_counterexample :
    ¬ (pyStrip (preprocessText "um texto qualquer aleatorio")).length < 10 ∧
    (classify_email "um texto qualquer aleatorio" none ModelOutcome.exn).confidence ≠
      (classify_with_keywords (preprocessText "um texto qualquer aleatorio")).confidence := by
  refine ⟨by decide, ?_⟩
  rw [classify_email_exn "um texto qualquer aleatorio" none (by decide)]
  have hk : classify_with_keywords (preprocessText "um texto qualquer aleatorio") =
      keywordDecision 0 0 := rfl
  rw [hk]
  norm_num [fallback_classification, keywordDecision]

/-- C5 (amended): for texts passing the short-text gate, an exception
from the model call yields the fixed ultimate-fallback result
(Productive, 0.5, fallback reasoning); the Keyword Decision Policy
result on the cleaned text is returned instead when the model backend is
absent (classifier attribute is None), with the translated text added. -/
theorem c5_exn_fallback_absent_keyword (text : String) (tr : Option String)
    (h : ¬ (pyStrip (preprocessText text)).length < 10) :
    classify_email text tr ModelOutcome.exn = fallback_classification text ∧
    classify_email text tr ModelOutcome.absent =
      { classify_with_keywords (preprocessText text) with
          translated_text := some (tr.getD (preprocessText text)) } :=
  ⟨classify_email_exn text tr h, classify_email_absent text tr h⟩

/-- Witness for the amended C5 at a concrete 18-character text. -/
theorem c5_exn_fallback_absent_keyword_witness :
    classify_email "um texto sem chave" none ModelOutcome.exn =
      fallback_classification "um texto sem chave" ∧
    classify_email "um texto sem chave" none ModelOutcome.absent =
      { classify_with_keywords (preprocessText "um texto sem chave") with
          translated_text :=
            some ((none : Option String).getD (preprocessText "um texto sem chave")) } :=
  c5_exn_fallback_absent_keyword "um texto sem chave" none (by decide)

/-- C6 counterexample: when the model output contains labels/scores
lists that omit both expected label descriptions (here: empty lists),
the decision policy still produces a classification from that result
itself — the low-score default branch — rather than signalling failure
upward: the result differs from the exception-path result. -/
theorem c6_malformed_not_failure_counterexample :
    (classify_email "um texto grande o bastante" none
        (ModelOutcome.output ⟨some [], some []⟩)).reasoning =
      "Score baixo, default produtivo" ∧
    classify_email "um texto grande o bastante" none
        (ModelOutcome.output ⟨some [], some []⟩) ≠
      classify_email "um texto grande o bastante" none ModelOutcome.exn := by
  have ho := classify_email_output "um texto grande o bastante" none [] [] (by decide)
  have he := classify_email_exn "um texto grande o bastante" none (by decide)
  have hd : dictGet (List.zip ([] : List String) ([] : List ℚ)) candidate_label_productive
      = 0 := rfl
  have hd2 : dictGet (List.zip ([] : List String) ([] : List ℚ)) candidate_label_unproductive
      = 0 := rfl
  rw [hd, hd2, zeroShotDecision_zero] at ho
  refine ⟨by rw [ho], ?_⟩
  rw [ho, he]
  intro contra
  have hconf := congrArg ClassificationResult.confidence contra
  norm_num [fallback_classification] at hconf

/-- C6 (amended): a model output whose `labels` or `scores` entry is
missing makes the subscript raise, and the controller's outer `except`
returns the ultimate fallback result; but a well-formed output whose
label list merely omits the expected candidate descriptions is not
treated as a failure: each missing description's score defaults to 0 and
the threshold logic proceeds, yielding the low-score default
classification (Productive, confidence 0). -/
theorem c6_malformed_output_behaviour (text : String) (tr : Option String)
    (h : ¬ (pyStrip (preprocessText text)).length < 10) :
    (∀ o : ZeroShotOutput, o.labels = none ∨ o.scores = none →
      classify_email text tr (ModelOutcome.output o) = fallback_classification text) ∧
    (∀ (ls : List String) (ss : List ℚ),
      candidate_label_productive ∉ ls → candidate_label_unproductive ∉ ls →
      (classify_email text tr (ModelOutcome.output ⟨some ls, some ss⟩)).classification =
        "produtivo" ∧
      (classify_email text tr (ModelOutcome.output ⟨some ls, some ss⟩)).confidence = 0 ∧
      (classify_email text tr (ModelOutcome.output ⟨some ls, some ss⟩)).reasoning =
        "Score baixo, default produtivo") := by
  constructor
  · intro o hmal
    exact classify_email_output_missing text tr o h hmal
  · intro ls ss hp hu
    rw [classify_email_output text tr ls ss h, dictGet_not_mem ls ss _ hp,
      dictGet_not_mem ls ss _ hu, zeroShotDecision_zero]
    exact ⟨rfl, rfl, rfl⟩

/-- Witness for the amended C6 at a concrete text, with one output
missing the scores entry and one output carrying an unexpected label. -/
theorem c6_malformed_output_behaviour_witness :
    classify_email "mensagem de teste valida" none (ModelOutcome.output ⟨none, some []⟩) =
      fallback_classification "mensagem de teste valida" ∧
    (classify_email "mensagem de teste valida" none
        (ModelOutcome.output ⟨some ["outra"], some [0.9]⟩)).classification = "produtivo" := by
  have h := c6_malformed_output_behaviour "mensagem de teste valida" none (by decide)
  exact ⟨h.1 ⟨none, some []⟩ (Or.inl rfl), (h.2 ["outra"] [0.9] (by decide) (by decide)).1⟩

lemma keywordDecision_label_reasoning (pc uc : Nat) :
    ((keywordDecision pc uc).classification = "produtivo" ∨
     (keywordDecision pc uc).classification = "improdutivo") ∧
    (keywordDecision pc uc).reasoning ≠ "" := by
  unfold keywordDecision
  split_ifs with h1 h2
  · exact ⟨Or.inl rfl, append_ne_empty _ _ (append_ne_empty _ _ (by decide))⟩
  · exact ⟨Or.inr rfl, append_ne_empty _ _ (append_ne_empty _ _ (by decide))⟩
  · exact ⟨Or.inl rfl, by decide⟩

lemma classify_with_keywords_label_reasoning (t : String) :
    ((classify_with_keywords t).classification = "produtivo" ∨
     (classify_with_keywords t).classification = "improdutivo") ∧
    (classify_with_keywords t).reasoning ≠ "" :=
  keywordDecision_label_reasoning _ _

lemma zeroShotDecision_label_reasoning (ps us : ℚ) (t : String) :
    ((zeroShotDecision ps us t).classification = "produtivo" ∨
     (zeroShotDecision ps us t).classification = "improdutivo") ∧
    (zeroShotDecision ps us t).reasoning ≠ "" := by
  simp only [zeroShotDecision]
  split_ifs with h1 h2 h3
  · exact ⟨Or.inl rfl, append_ne_empty _ _ (by decide)⟩
  · exact ⟨Or.inr rfl, append_ne_empty _ _ (by decide)⟩
  · exact ⟨(classify_with_keywords_label_reasoning t).1, append_ne_empty _ _ (by decide)⟩
  · exact ⟨Or.inl rfl,
      (by decide : ("Score baixo, default produtivo" : String) ≠ "")⟩

/-- C7: for every input text, translator outcome and model outcome,
`classify_email` returns (it is a total function of the embedding) a
result whose label is exactly `'produtivo'` or `'improdutivo'` and whose
reasoning string is non-empty. -/
theorem c7_total_binary_label (text : String) (tr : Option String) (outcome : ModelOutcome) :
    ((classify_email text tr outcome).classification = "produtivo" ∨
     (classify_email text tr outcome).classification = "improdutivo") ∧
    (classify_email text tr outcome).reasoning ≠ "" := by
  by_cases h : (pyStrip (preprocessText text)).length < 10
  · rw [classify_email_short text tr outcome h]
    exact ⟨Or.inr rfl, by decide⟩
  · cases outcome with
    | absent =>
        rw [classify_email_absent text tr h]
        exact ⟨(classify_with_keywords_label_reasoning _).1,
          (classify_with_keywords_label_reasoning _).2⟩
    | exn =>
        rw [classify_email_exn text tr h]
        exact ⟨Or.inl rfl,
          (by decide : ("Classificação de fallback devido a erro" : String) ≠ "")⟩
    | output o =>
        rcases o with ⟨lbl, sc⟩
        cases lbl with
        | none =>
            rw [classify_email_output_missing text tr _ h (Or.inl rfl)]
            exact ⟨Or.inl rfl,
              (by decide : ("Classificação de fallback devido a erro" : String) ≠ "")⟩
        | some ls =>
            cases sc with
            | none =>
                rw [classify_email_output_missing text tr _ h (Or.inr rfl)]
                exact ⟨Or.inl rfl,
                  (by decide : ("Classificação de fallback devido a erro" : String) ≠ "")⟩
            | some ss =>
                rw [classify_email_output text tr ls ss h]
                exact ⟨(zeroShotDecision_label_reasoning _ _ _).1,
                  (zeroShotDecision_label_reasoning _ _ _).2⟩

lemma keywordDecision_confidence_bounds (pc uc : Nat) :
    0 ≤ (keywordDecision pc uc).confidence ∧ (keywordDecision pc uc).confidence ≤ 1 := by
  unfold keywordDecision
  split_ifs with h1 h2
  · have hc : (0:ℚ) ≤ (pc : ℚ) := Nat.cast_nonneg pc
    constructor
    · exact le_min (by norm_num) (by linarith)
    · exact le_trans (min_le_left _ _) (by norm_num)
  · have hc : (0:ℚ) ≤ (uc : ℚ) := Nat.cast_nonneg uc
    constructor
    · exact le_min (by norm_num) (by linarith)
    · exact le_trans (min_le_left _ _) (by norm_num)
  · constructor <;> norm_num

lemma zeroShotDecision_confidence_bounds (ps us : ℚ) (t : String)
    (hp0 : 0 ≤ ps) (hp1 : ps ≤ 1) (hu0 : 0 ≤ us) (hu1 : us ≤ 1) :
    0 ≤ (zeroShotDecision ps us t).confidence ∧ (zeroShotDecision ps us t).confidence ≤ 1 := by
  simp only [zeroShotDecision]
  split_ifs with h1 h2 h3
  · exact ⟨hp0, hp1⟩
  · exact ⟨hu0, hu1⟩
  · exact ⟨le_max_of_le_left hp0, max_le hp1 hu1⟩
  · exact ⟨le_max_of_le_left hp0, max_le hp1 hu1⟩

/-- A model outcome is valid when every score it carries lies in [0,1];
outcomes without scores (absence, exception) are vacuously valid. -/
def validScores : ModelOutcome → Prop
  | ModelOutcome.output o => ∀ s ∈ o.scores.getD [], 0 ≤ s ∧ s ≤ 1
  | _ => True

/-- C8: for every input and every model outcome whose scores all lie in
[0,1], the confidence returned by `classify_email` — through the
short-text gate, every zero-shot threshold branch, every keyword-policy
branch, and the ultimate fallback — lies in [0.0, 1.0]. -/
theorem c8_confidence_unit_interval (text : String) (tr : Option String)
    (outcome : ModelOutcome) (hv : validScores outcome) :
    0 ≤ (classify_email text tr outcome).confidence ∧
    (classify_email text tr outcome).confidence ≤ 1 := by
  by_cases h : (pyStrip (preprocessText text)).length < 10
  · rw [classify_email_short text tr outcome h]
    norm_num
  · cases outcome with
    | absent =>
        rw [classify_email_absent text tr h]
        exact keywordDecision_confidence_bounds _ _
    | exn =>
        rw [classify_email_exn text tr h]
        norm_num [fallback_classification]
    | output o =>
        rcases o with ⟨lbl, sc⟩
        cases lbl with
        | none =>
            rw [classify_email_output_missing text tr _ h (Or.inl rfl)]
            norm_num [fallback_classification]
        | some ls =>
            cases sc with
            | none =>
                rw [classify_email_output_missing text tr _ h (Or.inr rfl)]
                norm_num [fallback_classification]
            | some ss =>
                rw [classify_email_output text tr ls ss h]
                have hss : ∀ s ∈ ss, 0 ≤ s ∧ s ≤ 1 := hv
                have hb1 := dictGet_bounds ls ss candidate_label_productive hss
                have hb2 := dictGet_bounds ls ss candidate_label_unproductive hss
                exact zeroShotDecision_confidence_bounds _ _ _ hb1.1 hb1.2 hb2.1 hb2.2

/-- Witness for C8 at a concrete text and a model output carrying the
expected labels with scores (0.82, 0.10). -/
theorem c8_confidence_unit_interval_witness :
    0 ≤ (classify_email "Preciso de uma resposta rapida" none
        (ModelOutcome.output ⟨some [candidate_label_productive, candidate_label_unproductive],
          some [0.82, 0.10]⟩)).confidence ∧
    (classify_email "Preciso de uma resposta rapida" none
        (ModelOutcome.output ⟨some [candidate_label_productive, candidate_label_unproductive],
          some [0.82, 0.10]⟩)).confidence ≤ 1 := by
  refine c8_confidence_unit_interval _ none _ ?_
  intro s hs
  simp only [Option.getD_some, List.mem_cons, List.mem_singleton] at hs
  rcases hs with h | h | h
  · subst h; norm_num
  · subst h; norm_num
  · simp at h

/-- Modelled from the spec wording of C9 for comparison with the code:
the category keyword groups in their fixed priority order, each paired
with its specific template. -/
def productiveTemplateGroups : List (List String × String) :=
  [(["urgente", "crítico", "emergência"], resp_prod_urgent),
   (["erro", "problema", "falha", "bug"], resp_prod_error),
   (["suporte", "ajuda", "dúvida"], resp_prod_support),
   (["status", "atualização", "andamento"], resp_prod_status),
   (["reunião", "meeting", "encontro"], resp_prod_meeting)]

/-- Modelled from the spec wording of C9: scan the keyword groups in
priority order and return the first matching group's template; if none
match, pick the generic template indexed by confidence band. -/
def productiveResponseSpec (text : String) (confidence : ℚ) : String :=
  let tl := pyLower text
  match productiveTemplateGroups.find? (fun g => g.1.any (fun w => strContains tl w)) with
  | some g => g.2
  | none =>
      if confidence > 0.8 then resp_prod_generic_0
      else if confidence > 0.6 then resp_prod_generic_1
      else resp_prod_generic_2

/-- C9: for every text and confidence, the productive response selector
equals the spec's description — first matching keyword group in the
fixed priority order urgent/critical, error/problem/bug, support/help,
status/update, meeting-request wins; with no match the generic template
is chosen by confidence band (>0.8, >0.6, else). -/
theorem c9_productive_template_priority (t : String) (conf : ℚ) :
    generate_productive_response t conf = productiveResponseSpec t conf := by
  simp only [generate_productive_response, productiveResponseSpec, productiveTemplateGroups]
  cases h1 : ["urgente", "crítico", "emergência"].any (fun w => strContains (pyLower t) w) <;>
  cases h2 : ["erro", "problema", "falha", "bug"].any (fun w => strContains (pyLower t) w) <;>
  cases h3 : ["suporte", "ajuda", "dúvida"].any (fun w => strContains (pyLower t) w) <;>
  cases h4 : ["status", "atualização", "andamento"].any (fun w => strContains (pyLower t) w) <;>
  cases h5 : ["reunião", "meeting", "encontro"].any (fun w => strContains (pyLower t) w) <;>
    simp [h1, h2, h3, h4, h5, List.find?]

/-- The Unproductive template family: the four specific templates and
the three generic templates of `_generate_unproductive_response`. -/
def unproductiveTemplates : List String :=
  [resp_unprod_congrats, resp_unprod_thanks, resp_unprod_holiday, resp_unprod_birthday,
   resp_unprod_generic_0, resp_unprod_generic_1, resp_unprod_generic_2]

/-- C10: `generate_response` is total and routes on the exact string
`'produtivo'`: for every other classification string (not only
`'improdutivo'`) the reply comes from the Unproductive template family,
and for any label, text and confidence the reply is non-empty. -/
theorem c10_generate_response_total (c t : String) (conf : ℚ) :
    (c ≠ "produtivo" → generate_response c t conf ∈ unproductiveTemplates) ∧
    generate_response c t conf ≠ "" := by
  have hunprod : ∀ (t' : String) (conf' : ℚ),
      generate_unproductive_response t' conf' ∈ unproductiveTemplates := by
    intro t' conf'
    simp only [generate_unproductive_response]
    split_ifs <;> simp [unproductiveTemplates]
  have hne : ∀ s ∈ unproductiveTemplates, s ≠ "" := by decide
  constructor
  · intro h
    unfold generate_response
    rw [if_neg h]
    exact hunprod t conf
  · unfold generate_response
    split_ifs with h
    · simp only [generate_productive_response]
      split_ifs <;> decide
    · exact hne _ (hunprod t conf)

/-- Witness for C10 at the unknown label "spam". -/
theorem c10_generate_response_total_witness :
    generate_response "spam" "" 0 ∈ unproductiveTemplates ∧
    generate_response "spam" "" 0 ≠ "" :=
  ⟨(c10_generate_response_total "spam" "" 0).1 (by decide),
   (c10_generate_response_total "spam" "" 0).2⟩

end EmailClassifier
